import Mathlib

/-!
Verification model of the reminder bot's scheduling and recurrence engine
(`bot.py`, `migrations.py`).  Python `datetime` values are embedded as
proleptic-Gregorian wall-clock fields plus an optional fixed UTC offset in
minutes (pytz localizes a naive datetime by baking in the offset valid at
that local time; subsequent `timedelta` arithmetic and `replace` keep that
fixed offset unchanged, which is exactly what the source relies on).
Instants are measured in minutes.
-/

/-- Leap-year rule of the proleptic Gregorian calendar, as used by
Python's `calendar.isleap`. -/
def isLeap (y : Int) : Bool :=
  (y % 4 == 0 && y % 100 != 0) || y % 400 == 0

/-- Number of days in a month, as returned by `calendar.monthrange(y, m)[1]`
in the source's day-overflow clamp. -/
def daysInMonth (y m : Int) : Int :=
  if m = 2 then (if isLeap y then 29 else 28)
  else if m = 4 ∨ m = 6 ∨ m = 9 ∨ m = 11 then 30
  else 31

/-- Days since 1970-01-01 of a civil date (standard civil-from-days
algorithm); models the day arithmetic inside Python's `datetime`. -/
def daysFromCivil (y m d : Int) : Int :=
  let yy := if m ≤ 2 then y - 1 else y
  let era := Int.fdiv yy 400
  let yoe := yy - era * 400
  let mp := if m > 2 then m - 3 else m + 9
  let doy := Int.fdiv (153 * mp + 2) 5 + d - 1
  let doe := yoe * 365 + Int.fdiv yoe 4 - Int.fdiv yoe 100 + doy
  era * 146097 + doe - 719468

/-- Civil date of a day count since 1970-01-01 (inverse of `daysFromCivil`). -/
def civilFromDays (z0 : Int) : Int × Int × Int :=
  let z := z0 + 719468
  let era := Int.fdiv z 146097
  let doe := z - era * 146097
  let yoe := Int.fdiv (doe - Int.fdiv doe 1460 + Int.fdiv doe 36524 - Int.fdiv doe 146096) 365
  let y := yoe + era * 400
  let doy := doe - (365 * yoe + Int.fdiv yoe 4 - Int.fdiv yoe 100)
  let mp := Int.fdiv (5 * doy + 2) 153
  let d := doy - Int.fdiv (153 * mp + 2) 5 + 1
  let m := if mp < 10 then mp + 3 else mp - 9
  (if m ≤ 2 then y + 1 else y, m, d)

/-- Embedding of a Python `datetime`: wall-clock fields to the minute plus
the tzinfo as an optional fixed UTC offset in minutes (`none` = naive).
pytz's `localize` produces such a fixed offset; `utcoffset()` returns it. -/
structure PyDateTime where
  year : Int
  month : Int
  day : Int
  hour : Int
  minute : Int
  off : Option Int
deriving DecidableEq, Repr

/-- Minutes since the epoch of the naive wall-clock reading. -/
def naiveMin (dt : PyDateTime) : Int :=
  1440 * daysFromCivil dt.year dt.month dt.day + 60 * dt.hour + dt.minute

/-- Rebuild a `PyDateTime` from a minute count and an offset. -/
def ofNaiveMin (t : Int) (off : Option Int) : PyDateTime :=
  let d := civilFromDays (Int.fdiv t 1440)
  let rem := Int.fmod t 1440
  { year := d.1, month := d.2.1, day := d.2.2,
    hour := Int.fdiv rem 60, minute := Int.fmod rem 60, off := off }

/-- Python aware-datetime + `timedelta(minutes=k)`: wall-clock arithmetic,
tzinfo (the baked-in fixed offset) unchanged. -/
def addMinutes (dt : PyDateTime) (k : Int) : PyDateTime :=
  ofNaiveMin (naiveMin dt + k) dt.off

/-- Python `dt + timedelta(days=k)`. -/
def addDays (dt : PyDateTime) (k : Int) : PyDateTime :=
  addMinutes dt (1440 * k)

/-- Absolute instant (UTC minutes) denoted by a datetime; a naive datetime
is read with offset 0.  Python compares aware datetimes by this instant. -/
def utcMin (dt : PyDateTime) : Int :=
  naiveMin dt - (dt.off.getD 0)

/-- Python `dt.astimezone(pytz.UTC)`: same instant, offset zero. -/
def astimezoneUTC (dt : PyDateTime) : PyDateTime :=
  ofNaiveMin (utcMin dt) (some 0)

/-- Minute-of-day of a minute count (0 = midnight, 540 = 09:00). -/
def minuteOfDay (t : Int) : Int := Int.emod t 1440

/-- Model of an IANA zone with a single DST transition: local naive times
before `transLocal` carry `stdOff`, later ones `dstOff` (minutes east of
UTC, negative = west).  This is the Time Resolver's input data. -/
structure Tz where
  stdOff : Int
  dstOff : Int
  transLocal : Int
deriving DecidableEq, Repr

/-- Offset the zone assigns to a local naive minute count (what
`pytz.timezone(name).localize` bakes into the datetime). -/
def Tz.offsetAt (tz : Tz) (t : Int) : Int :=
  if t < tz.transLocal then tz.stdOff else tz.dstOff

/-- pytz `localize`: attach the offset valid at that local wall-clock time. -/
def Tz.localize (tz : Tz) (dt : PyDateTime) : PyDateTime :=
  { dt with off := some (tz.offsetAt (naiveMin dt)) }

/-- The transition instant expressed in UTC minutes. -/
def Tz.transUtc (tz : Tz) : Int := tz.transLocal - tz.stdOff

/-- True local wall-clock minute count shown in the zone at a UTC instant:
what the user's clock reads when a timer fires at that instant. -/
def Tz.localAt (tz : Tz) (u : Int) : Int :=
  if u < tz.transUtc then u + tz.stdOff else u + tz.dstOff

/-- Recurrence unit.  The store constrains `recurrence_type` to
`day`/`week`/`month` or NULL (migration `003_recurring_and_priority`:
CHECK recurrence_type IN ('day', 'week', 'month') OR IS NULL), so the
non-null values are embedded as this inductive. -/
inductive RecType where
  | day
  | week
  | month
deriving DecidableEq, Repr

/-- Embedding of `calculate_next_occurrence` (bot.py lines 700-734).
`day`/`week` add a `timedelta`; `month` adds calendar months with the
source's year-carry and day clamp, then runs the source's DST block: it
compares `last_time.utcoffset()` with `next_time.utcoffset()` — but
`replace` keeps the tzinfo, so both offsets are the same baked-in value. -/
def calculate_next_occurrence (last_time : PyDateTime) (recurrence_type : RecType)
    (interval : Int) : PyDateTime :=
  match recurrence_type with
  | .day => addDays last_time interval
  | .week => addDays last_time (7 * interval)
  | .month =>
    let month0 := last_time.month + interval
    let ym :=
      if month0 > 12 then
        let y1 := last_time.year + Int.fdiv month0 12
        let m1 := Int.fmod month0 12
        if m1 = 0 then (y1 - 1, (12 : Int)) else (y1, m1)
      else (last_time.year, month0)
    let day := min last_time.day (daysInMonth ym.1 ym.2)
    let next_time : PyDateTime :=
      { last_time with year := ym.1, month := ym.2, day := day }
    match next_time.off, last_time.off with
    | some newOff, some oldOff =>
        if oldOff ≠ newOff then addMinutes next_time (oldOff - newOff) else next_time
    | _, _ => next_time

/-- Errors raised by the embedded Python code paths. -/
inductive PyError where
  | reminderLimit
  | databaseError
  | unknownTimeZone
  | typeError
  | attributeError
  | valueError
deriving DecidableEq, Repr

/-- Row of the `users` table (migrations 001 and 004). -/
structure UserRow where
  user_id : Int
  timezone : Option String
  max_reminders : Int
  reminder_count : Int
deriving DecidableEq, Repr

/-- Row of the `reminders` table (migrations 001, 003). -/
structure ReminderRow where
  id : String
  user_id : Int
  message : String
  reminder_time : PyDateTime
  status : String
  priority : String
  recurrence_type : Option RecType
  recurrence_interval : Option Int
  recurrence_end_date : Option PyDateTime
  parent_reminder_id : Option String
deriving DecidableEq, Repr

/-- The SQLite database of the bot. -/
structure DB where
  users : List UserRow
  reminders : List ReminderRow
deriving DecidableEq, Repr

/-- Lookup of a user row by primary key. -/
def findUser (db : DB) (uid : Int) : Option UserRow :=
  db.users.find? (fun u => u.user_id == uid)

/-- Effect of the count triggers of migration `004_cleanup_and_limits`:
adjust the cached `reminder_count` of a user. -/
def bumpCount (users : List UserRow) (uid delta : Int) : List UserRow :=
  users.map (fun u =>
    if u.user_id == uid then { u with reminder_count := u.reminder_count + delta } else u)

/-- Embedding of `get_user_timezone` (bot.py 68-73). -/
def get_user_timezone (db : DB) (user_id : Int) : Option String :=
  (findUser db user_id).bind (fun u => u.timezone)

/-- Embedding of `save_reminder` (bot.py 86-109) together with the
`update_reminder_count_insert` trigger (migrations 004) and the PRIMARY KEY
constraint on `reminders.id`.  Raises `ReminderLimitError` when the cached
`reminder_count` has reached `max_reminders`; on success a `pending` row is
inserted and, in the same transaction, the trigger increments the cached
count.  The INSERT never writes `recurrence_end_date`. -/
def save_reminder (db : DB) (user_id : Int) (reminder_id message : String)
    (reminder_time : PyDateTime) (priority : String) (recurrence_type : Option RecType)
    (recurrence_interval : Option Int) (parent_id : Option String) : Except PyError DB :=
  match findUser db user_id with
  | none => .error .databaseError
  | some u =>
    if u.reminder_count ≥ u.max_reminders then .error .reminderLimit
    else if db.reminders.any (fun r => r.id == reminder_id) then .error .databaseError
    else
      let row : ReminderRow :=
        { id := reminder_id, user_id := user_id, message := message,
          reminder_time := reminder_time, status := "pending", priority := priority,
          recurrence_type := recurrence_type, recurrence_interval := recurrence_interval,
          recurrence_end_date := none, parent_reminder_id := parent_id }
      .ok { users := bumpCount db.users user_id 1, reminders := db.reminders ++ [row] }

/-- WHERE clause shared by the status-transition and update statements:
row matches the id, is `pending`, and (when a user filter is given) is
owned by that user. -/
def matchesPending (r : ReminderRow) (reminder_id : String) (owner : Option Int) : Bool :=
  r.id == reminder_id && r.status == "pending" &&
    (match owner with | none => true | some uid => r.user_id == uid)

/-- Embedding of `mark_reminder_complete` (bot.py 149-157) plus the
`update_reminder_count_delete` trigger (migrations 004): pending rows with
the id become `completed` and each owner's cached count is decremented. -/
def mark_reminder_complete (db : DB) (reminder_id : String) : DB × Bool :=
  let affected := db.reminders.filter (fun r => matchesPending r reminder_id none)
  let reminders := db.reminders.map (fun r =>
    if matchesPending r reminder_id none then { r with status := "completed" } else r)
  let users := affected.foldl (fun us r => bumpCount us r.user_id (-1)) db.users
  ({ users := users, reminders := reminders }, affected.length > 0)

/-- Embedding of `delete_reminder` (bot.py 132-147) plus the
`update_reminder_count_delete` trigger: pending rows with the id (owner
filtered when a user id is passed) become `cancelled`. -/
def delete_reminder (db : DB) (reminder_id : String) (user_id : Option Int) : DB × Bool :=
  let affected := db.reminders.filter (fun r => matchesPending r reminder_id user_id)
  let reminders := db.reminders.map (fun r =>
    if matchesPending r reminder_id user_id then { r with status := "cancelled" } else r)
  let users := affected.foldl (fun us r => bumpCount us r.user_id (-1)) db.users
  ({ users := users, reminders := reminders }, affected.length > 0)

/-- Partial update passed to `update_reminder`.  Python builds the SET
clause only from keyword arguments whose value is not None, so a field
supplied as None and a field not supplied at all are indistinguishable —
both are dropped; each updatable column is therefore an `Option`, `none`
meaning dropped from the SET clause. -/
structure UpdateFields where
  message : Option String
  reminder_time : Option PyDateTime
  priority : Option String
  recurrence_type : Option RecType
  recurrence_interval : Option Int
deriving DecidableEq, Repr

/-- The empty update: every keyword either absent or supplied as None. -/
def noUpdates : UpdateFields :=
  { message := none, reminder_time := none, priority := none,
    recurrence_type := none, recurrence_interval := none }

/-- Whether any SET clause survives the None filter. -/
def UpdateFields.hasAny (u : UpdateFields) : Bool :=
  u.message.isSome || u.reminder_time.isSome || u.priority.isSome ||
  u.recurrence_type.isSome || u.recurrence_interval.isSome

/-- Apply the surviving SET clauses to a row. -/
def applyUpdates (u : UpdateFields) (r : ReminderRow) : ReminderRow :=
  { r with
    message := u.message.getD r.message,
    reminder_time := u.reminder_time.getD r.reminder_time,
    priority := u.priority.getD r.priority,
    recurrence_type :=
      match u.recurrence_type with | some t => some t | none => r.recurrence_type,
    recurrence_interval :=
      match u.recurrence_interval with | some i => some i | none => r.recurrence_interval }

/-- Embedding of `update_reminder` (bot.py 228-262).  With no surviving SET
clause it returns False without touching the database; otherwise it updates
the matching pending row and reports whether one was changed.  The status
column is never in the SET clause, so the count triggers do not fire. -/
def update_reminder (db : DB) (reminder_id : String) (user_id : Option Int)
    (updates : UpdateFields) : DB × Bool :=
  if ¬ updates.hasAny then (db, false)
  else
    let affected := db.reminders.filter (fun r => matchesPending r reminder_id user_id)
    let reminders := db.reminders.map (fun r =>
      if matchesPending r reminder_id user_id then applyUpdates updates r else r)
    ({ db with reminders := reminders }, affected.length > 0)

/-- Embedding of `get_reminder_by_id` (bot.py 196-226): the row only when it
is still pending, optionally owner filtered. -/
def get_reminder_by_id (db : DB) (reminder_id : String) (user_id : Option Int) :
    Option ReminderRow :=
  db.reminders.find? (fun r => matchesPending r reminder_id user_id)

/-- Row shape produced by `get_all_pending_reminders` (bot.py 159-180): the
SELECT joins the owner's timezone and carries NO chat id column — the
reminders table has none (migrations 001). -/
structure PendingRow where
  id : String
  user_id : Int
  message : String
  time : PyDateTime
  timezone : Option String
  priority : String
  recurrence_type : Option RecType
  recurrence_interval : Option Int
deriving DecidableEq, Repr

/-- Embedding of `get_all_pending_reminders` (bot.py 159-180): every pending
reminder row inner-joined with its owner's user row. -/
def get_all_pending_reminders (db : DB) : List PendingRow :=
  (db.reminders.filter (fun r => r.status == "pending")).filterMap (fun r =>
    (findUser db r.user_id).map (fun u =>
      { id := r.id, user_id := r.user_id, message := r.message, time := r.reminder_time,
        timezone := u.timezone, priority := r.priority,
        recurrence_type := r.recurrence_type,
        recurrence_interval := r.recurrence_interval }))

/-- Embedding of `should_create_next_occurrence` (bot.py 858-873): reads the
fired row's `recurrence_end_date` (any status); True when the row or the
end date is absent, else whether the next time does not exceed the end. -/
def should_create_next_occurrence (db : DB) (reminder_id : String)
    (next_time : PyDateTime) : Bool :=
  match db.reminders.find? (fun r => r.id == reminder_id) with
  | none => true
  | some row =>
    match row.recurrence_end_date with
    | none => true
    | some endDate => utcMin next_time ≤ utcMin endDate

/-- One delivered chat message (`context.bot.send_message`). -/
structure SendEvent where
  chat_id : Int
  text : String
deriving DecidableEq, Repr

/-- The dict stored as a value of `active_reminders` (bot.py 759-768).  The
table's own annotation (line 265) declares `Dict[str, threading.Timer]`,
but `schedule_reminder` stores this metadata dict whose `timer` field holds
the started timer. -/
structure Entry where
  timer : Nat
  scheduled_time : PyDateTime
  user_id : Int
  chat_id : Int
  message : String
  priority : String
  recurrence_type : Option RecType
  recurrence_interval : Option Int
deriving DecidableEq, Repr

/-- A started `threading.Timer` that has neither fired nor been cancelled,
carrying the `send_reminder` arguments it will invoke.  A timer keeps
running whether or not any dictionary still references it; only an explicit
`cancel()` on the timer object disarms it. -/
structure TimerRec where
  handle : Nat
  reminder_id : String
  fireAt : Int
  chat_id : Int
  user_id : Int
  message : String
  priority : String
  recurrence_type : Option RecType
  recurrence_interval : Option Int
  last_time : PyDateTime
deriving DecidableEq, Repr

/-- Whole-process state: database, the `active_reminders` dict, every live
timer, fresh-handle and uuid counters, delivered messages
(`context.bot.send_message`), chat replies / message edits
(`reply_text` / `edit_message_text`), and logger output. -/
structure BotState where
  db : DB
  active_reminders : List (String × Entry)
  liveTimers : List TimerRec
  nextHandle : Nat
  uuidCtr : Nat
  sent : List SendEvent
  replies : List String
  logs : List String
deriving DecidableEq, Repr

/-- Python dict assignment `active_reminders[k] = v`: replaces any previous
binding (the displaced value is merely garbage, not cancelled). -/
def setEntry (m : List (String × Entry)) (k : String) (v : Entry) :
    List (String × Entry) :=
  m.filter (fun p => p.1 != k) ++ [(k, v)]

/-- Python `del active_reminders[k]` (no-op here when absent, used where the
source guards with `in`). -/
def delEntry (m : List (String × Entry)) (k : String) : List (String × Entry) :=
  m.filter (fun p => p.1 != k)

/-- Python `active_reminders.get(k)` / `k in active_reminders`. -/
def getEntry (m : List (String × Entry)) (k : String) : Option Entry :=
  (m.find? (fun p => p.1 == k)).map Prod.snd

/-- Number of live (armed, uncancelled, unfired) timers for a reminder id. -/
def timersFor (s : BotState) (reminder_id : String) : Nat :=
  (s.liveTimers.filter (fun t => t.reminder_id == reminder_id)).length

/-- Status of the (first) stored row with an id. -/
def statusOf (db : DB) (reminder_id : String) : Option String :=
  (db.reminders.find? (fun r => r.id == reminder_id)).map (fun r => r.status)

/-- Number of the user's `pending` rows. -/
def pendingCount (db : DB) (uid : Int) : Int :=
  ((db.reminders.filter (fun r => r.user_id == uid && r.status == "pending")).length : Int)

/-- Cached `reminder_count` of a user. -/
def userCount (db : DB) (uid : Int) : Option Int :=
  (findUser db uid).map (fun u => u.reminder_count)

/-- Deterministic stand-in for `str(uuid.uuid4())[:8]`. -/
def uuidName (n : Nat) : String := "uuid-" ++ toString n

/-- Embedding of `schedule_reminder` (bot.py 736-771).  A naive time is
localized with the owner's stored timezone (`pytz.timezone` raises when the
user has no timezone row or the name is unknown); the delay to now is
computed in UTC; only when the delay is strictly positive is a fresh timer
started and the metadata dict stored under the reminder id — overwriting
any previous entry without cancelling that entry's timer.  With delay ≤ 0
the function does nothing at all. -/
def schedule_reminder (zones : String → Option Tz) (now : Int) (s : BotState)
    (chat_id user_id : Int) (reminder_id : String) (reminder_time : PyDateTime)
    (message priority : String) (recurrence_type : Option RecType)
    (recurrence_interval : Option Int) : Except PyError BotState :=
  let localized : Except PyError PyDateTime :=
    match reminder_time.off with
    | some _ => .ok reminder_time
    | none =>
      match get_user_timezone s.db user_id with
      | none => .error .unknownTimeZone
      | some name =>
        match zones name with
        | none => .error .unknownTimeZone
        | some tz => .ok (tz.localize reminder_time)
  match localized with
  | .error e => .error e
  | .ok rt =>
    let delay := utcMin (astimezoneUTC rt) - now
    if delay > 0 then
      let h := s.nextHandle
      let entry : Entry :=
        { timer := h, scheduled_time := rt, user_id := user_id, chat_id := chat_id,
          message := message, priority := priority,
          recurrence_type := recurrence_type,
          recurrence_interval := recurrence_interval }
      let trec : TimerRec :=
        { handle := h, reminder_id := reminder_id, fireAt := now + delay,
          chat_id := chat_id, user_id := user_id, message := message,
          priority := priority, recurrence_type := recurrence_type,
          recurrence_interval := recurrence_interval, last_time := rt }
      .ok { s with
            active_reminders := setEntry s.active_reminders reminder_id entry,
            liveTimers := trec :: s.liveTimers,
            nextHandle := h + 1,
            logs := s.logs ++ ["scheduled " ++ reminder_id] }
    else .ok s

/-- Priority emoji prefix (bot.py 268-272). -/
def priorityEmoji (p : String) : String :=
  if p == "high" then "[hi] " else if p == "medium" then "[md] "
  else if p == "low" then "[lo] " else ""

/-- Embedding of `send_reminder` (bot.py 801-856).  `deliverOk` is the
delivery sink's outcome: `false` means `context.bot.send_message` raised,
jumping to the except handler of lines 853-856, which logs and drops the
active entry WITHOUT reaching `mark_reminder_complete` — the row stays
pending.  On successful delivery the entry is removed; for a recurring
reminder the next occurrence is computed, the series ends silently when
`should_create_next_occurrence` refuses it, otherwise a successor row is
saved and scheduled (failures there are logged and reported with a warning
message, the fired row still completed); finally the row is completed.
A recurring row whose interval is NULL makes `timedelta` raise TypeError,
landing in the same except handler. -/
def send_reminder (zones : String → Option Tz) (now : Int) (deliverOk : Bool)
    (s : BotState) (chat_id user_id : Int) (reminder_id message priority : String)
    (recurrence_type : Option RecType) (recurrence_interval : Option Int)
    (last_time : PyDateTime) : BotState :=
  if deliverOk then
    let deliverMsg : SendEvent :=
      { chat_id := chat_id, text := priorityEmoji priority ++ "Reminder: " ++ message }
    let s1 := { s with
      sent := s.sent ++ [deliverMsg],
      active_reminders := delEntry s.active_reminders reminder_id }
    match recurrence_type with
    | none =>
      let r := mark_reminder_complete s1.db reminder_id
      { s1 with db := r.1 }
    | some rtype =>
      match recurrence_interval with
      | none =>
        { s1 with logs := s1.logs ++ ["send_error " ++ reminder_id] }
      | some interval =>
        let next_time := calculate_next_occurrence last_time rtype interval
        if ¬ should_create_next_occurrence s1.db reminder_id next_time then
          let r := mark_reminder_complete s1.db reminder_id
          { s1 with db := r.1 }
        else
          let next_id := uuidName s1.uuidCtr
          let s2 := { s1 with uuidCtr := s1.uuidCtr + 1 }
          match save_reminder s2.db user_id next_id message next_time priority
              (some rtype) (some interval) (some reminder_id) with
          | .error _ =>
            let warnMsg : SendEvent :=
              { chat_id := chat_id, text := "Warning: failed to schedule next occurrence of recurring reminder. Please check /list" }
            let s3 := { s2 with
              logs := s2.logs ++ ["create_next_failed " ++ reminder_id],
              sent := s2.sent ++ [warnMsg] }
            let r := mark_reminder_complete s3.db reminder_id
            { s3 with db := r.1 }
          | .ok db2 =>
            match schedule_reminder zones now { s2 with db := db2 } chat_id user_id
                next_id next_time message priority (some rtype) (some interval) with
            | .error _ =>
              let warnMsg : SendEvent :=
                { chat_id := chat_id, text := "Warning: failed to schedule next occurrence of recurring reminder. Please check /list" }
              let s3 := { s2 with
                db := db2,
                logs := s2.logs ++ ["create_next_failed " ++ reminder_id],
                sent := s2.sent ++ [warnMsg] }
              let r := mark_reminder_complete s3.db reminder_id
              { s3 with db := r.1 }
            | .ok s3 =>
              let s4 := { s3 with logs := s3.logs ++ ["created next " ++ next_id] }
              let r := mark_reminder_complete s4.db reminder_id
              { s4 with db := r.1 }
  else
    { s with
      logs := s.logs ++ ["send_error " ++ reminder_id],
      active_reminders := delEntry s.active_reminders reminder_id }

/-- Expiry of a live timer: the `threading.Timer` runs `send_reminder` with
its stored arguments; the timer is spent. -/
def fireTimer (zones : String → Option Tz) (now : Int) (deliverOk : Bool)
    (s : BotState) (h : Nat) : BotState :=
  match s.liveTimers.find? (fun t => t.handle == h) with
  | none => s
  | some t =>
    let s1 := { s with liveTimers := s.liveTimers.filter (fun t2 => t2.handle != h) }
    send_reminder zones now deliverOk s1 t.chat_id t.user_id t.reminder_id t.message
      t.priority t.recurrence_type t.recurrence_interval t.last_time

/-- Embedding of the `/cancel` command handler `cancel_reminder`
(bot.py 686-698): with an id argument it cancels the stored row via
`delete_reminder` and replies.  It never touches `active_reminders` nor any
timer. -/
def cancel_reminder (s : BotState) (args : List String) : BotState :=
  match args with
  | [] => { s with replies := s.replies ++
      ["Please provide a reminder ID. Use /list to see your reminders and their IDs."] }
  | reminder_id :: _ =>
    let r := delete_reminder s.db reminder_id none
    if r.2 then
      { s with
        db := r.1,
        replies := s.replies ++ ["Reminder " ++ reminder_id ++ " cancelled."] }
    else
      { s with replies := s.replies ++
        ["Reminder not found. Use /list to see your active reminders."] }

/-- Embedding of the `cancel_` branch of `button_callback` (bot.py 558-567).
After `delete_reminder` succeeds the code runs
`active_reminders[reminder_id].cancel()`; the stored value is the metadata
dict (not the `threading.Timer` promised by the annotation of line 265),
and a dict has no `cancel` attribute, so Python raises AttributeError
before the entry is deleted or the confirmation is shown: the timer stays
live. -/
def button_cancel (s : BotState) (reminder_id : String) :
    Except (BotState × PyError) BotState :=
  let r := delete_reminder s.db reminder_id none
  if r.2 then
    if (getEntry s.active_reminders reminder_id).isSome then
      .error ({ s with db := r.1 }, .attributeError)
    else
      .ok { s with db := r.1, replies := s.replies ++ ["Reminder cancelled."] }
  else
    .ok { s with replies := s.replies ++ ["Reminder not found or already cancelled."] }

/-- Helper of `pySplit`: split a character list at every separator,
accumulating the current piece in reverse. -/
def splitChars (sep : Char) : List Char → List Char → List String
  | acc, [] => [acc.reverse.asString]
  | acc, c :: rest =>
    if c = sep then acc.reverse.asString :: splitChars sep [] rest
    else splitChars sep (c :: acc) rest

/-- Python `s.split(sep)` for a single-character separator: consecutive
separators yield empty pieces, exactly as in Python. -/
def pySplit (s : String) (sep : Char) : List String :=
  splitChars sep [] s.data

/-- Parse of the recurrence keyword in the `set_recur_` callback data. -/
def strToRecType (sv : String) : Option RecType :=
  if sv = "day" then some RecType.day
  else if sv = "week" then some RecType.week
  else if sv = "month" then some RecType.month
  else none

/-- Embedding of the `set_recur_` branch of `button_callback`
(bot.py 518-542).  The callback data `set_recur_<id>_<kind>_<interval>`
splits on every underscore into five pieces, and Python unpacks them into
four targets, so ValueError is raised before anything else runs.  The
four-piece arm embeds the intended body: for the `none` kind,
`update_reminder` is called with both recurrence kwargs None (an empty SET
clause, hence False) and a failure message is shown; otherwise the fields
are updated and the reminder rescheduled. -/
def button_set_recur (zones : String → Option Tz) (now : Int) (s : BotState)
    (chatId userId : Int) (data : String) : Except (BotState × PyError) BotState :=
  match pySplit data '_' with
  | [_, reminder_id, rec_type, intervalStr] =>
    if rec_type = "none" then
      let r := update_reminder s.db reminder_id none noUpdates
      if r.2 then
        .ok { s with db := r.1, replies := s.replies ++
          ["Recurrence pattern updated! Use /list to see your reminders."] }
      else
        .ok { s with db := r.1, replies := s.replies ++
          ["Failed to update reminder. It might have been cancelled or completed."] }
    else
      match intervalStr.toInt?, strToRecType rec_type with
      | some i, some rt =>
        let r := update_reminder s.db reminder_id none
          { noUpdates with recurrence_type := some rt, recurrence_interval := some i }
        if r.2 then
          let s1 := { s with db := r.1 }
          match get_reminder_by_id s1.db reminder_id none with
          | some row =>
            match schedule_reminder zones now s1 chatId userId reminder_id
                row.reminder_time row.message row.priority (some rt) (some i) with
            | .error e => .error (s1, e)
            | .ok s2 => .ok { s2 with replies := s2.replies ++
                ["Recurrence pattern updated! Use /list to see your reminders."] }
          | none => .ok { s1 with replies := s1.replies ++
              ["Recurrence pattern updated! Use /list to see your reminders."] }
        else
          .ok { s with db := r.1, replies := s.replies ++
            ["Failed to update reminder. It might have been cancelled or completed."] }
      | _, _ => .error (s, .valueError)
  | _ => .error (s, .valueError)

/-- Main part of one iteration of the `handle_missed_reminders` loop
(bot.py 887-943) on a fetched pending row, after its time was made aware:
a past instant gets the missed message, a recurrence advance happens only
when the computed next instant is strictly in the future AND within the end
date, then the row is completed; a non-past instant is handed to
`schedule_reminder`.  Any exception propagates (the try/except wraps the
whole loop), carrying the state mutated so far. -/
def processPendingWith (zones : String → Option Tz) (now : Int) (s : BotState)
    (r : PendingRow) (reminder_time : PyDateTime) :
    Except (BotState × PyError) BotState :=
    let reminder_time_utc := astimezoneUTC reminder_time
    if utcMin reminder_time_utc < now then
      let s1 := { s with sent := s.sent ++
        [{ chat_id := r.user_id, text := "Missed Reminder: " ++ r.message }] }
      match r.recurrence_type with
      | some rtype =>
        match r.recurrence_interval with
        | none => .error (s1, .typeError)
        | some interval =>
          let next_time := calculate_next_occurrence reminder_time rtype interval
          if decide (utcMin next_time > now) &&
              should_create_next_occurrence s1.db r.id next_time then
            let next_id := uuidName s1.uuidCtr
            let s2 := { s1 with uuidCtr := s1.uuidCtr + 1 }
            match save_reminder s2.db r.user_id next_id r.message next_time r.priority
                (some rtype) (some interval) (some r.id) with
            | .error e => .error (s2, e)
            | .ok db2 =>
              match schedule_reminder zones now { s2 with db := db2 } r.user_id
                  r.user_id next_id next_time r.message r.priority (some rtype)
                  (some interval) with
              | .error e => .error ({ s2 with db := db2 }, e)
              | .ok s3 =>
                let c := mark_reminder_complete s3.db r.id
                .ok { s3 with db := c.1 }
          else
            let c := mark_reminder_complete s1.db r.id
            .ok { s1 with db := c.1 }
      | none =>
        let c := mark_reminder_complete s1.db r.id
        .ok { s1 with db := c.1 }
    else
      match schedule_reminder zones now s r.user_id r.user_id r.id reminder_time
          r.message r.priority r.recurrence_type r.recurrence_interval with
      | .error e => .error (s, e)
      | .ok s1 => .ok s1

/-- Localization prologue of the loop iteration (bot.py 882-885) followed by
`processPendingWith`: a naive stored time is localized with the owner's
joined timezone (`pytz.timezone` raising on an unknown or absent name). -/
def processPending (zones : String → Option Tz) (now : Int) (s : BotState)
    (r : PendingRow) : Except (BotState × PyError) BotState :=
  let localized : Except PyError PyDateTime :=
    match r.time.off with
    | some _ => .ok r.time
    | none =>
      match r.timezone with
      | none => .error .unknownTimeZone
      | some name =>
        match zones name with
        | none => .error .unknownTimeZone
        | some tz => .ok (tz.localize r.time)
  match localized with
  | .error e => .error (s, e)
  | .ok reminder_time => processPendingWith zones now s r reminder_time

/-- The `for` loop of `handle_missed_reminders`; an exception stops the
remaining iterations (the surrounding try/except only logs it), keeping the
database writes and timers armed before the failure. -/
def sweepRows (zones : String → Option Tz) (now : Int) :
    BotState → List PendingRow → BotState
  | s, [] => s
  | s, r :: rest =>
    match processPending zones now s r with
    | .ok s1 => sweepRows zones now s1 rest
    | .error (s1, _) => { s1 with logs := s1.logs ++ ["sweep_error"] }

/-- Embedding of `handle_missed_reminders` (bot.py 875-945): fetch every
pending row joined with its owner's timezone and process each in order. -/
def handle_missed_reminders (zones : String → Option Tz) (now : Int)
    (s : BotState) : BotState :=
  sweepRows zones now s (get_all_pending_reminders s.db)

/-- Projection of an `Except`-valued scheduler call onto the success state. -/
def okState (x : Except PyError BotState) : Option BotState :=
  match x with
  | .error _ => none
  | .ok s => some s

/-- Projection of a sweep-style result onto the raised error, if any. -/
def errOf (x : Except (BotState × PyError) BotState) : Option PyError :=
  match x with
  | .error p => some p.2
  | .ok _ => none

/-- Projection of a sweep-style result onto the state reached when an
exception was raised. -/
def errState (x : Except (BotState × PyError) BotState) : Option BotState :=
  match x with
  | .error p => some p.1
  | .ok _ => none

/-- Zone environment with no known zone names (no naive time is localized
in the concrete runs below: every stored time is offset-aware). -/
def noZones : String → Option Tz := fun _ => none

/-- A fixed sweep instant for the concrete runs. -/
def nowT : Int := 1000000

/-- Concrete user row. -/
def userBase : UserRow :=
  { user_id := 7, timezone := some "UTC", max_reminders := 50, reminder_count := 1 }

/-- Concrete future pending one-shot reminder of user 7, due one hour after
`nowT`. -/
def rowFuture : ReminderRow :=
  { id := "r1", user_id := 7, message := "hello",
    reminder_time := ofNaiveMin (nowT + 60) (some 0), status := "pending",
    priority := "medium", recurrence_type := none, recurrence_interval := none,
    recurrence_end_date := none, parent_reminder_id := none }

/-- Concrete database: one user, one future pending reminder. -/
def dbBase : DB := { users := [userBase], reminders := [rowFuture] }

/-- Fresh process state over `dbBase`: nothing armed yet. -/
def sBase : BotState :=
  { db := dbBase, active_reminders := [], liveTimers := [], nextHandle := 0,
    uuidCtr := 0, sent := [], replies := [], logs := [] }

/-- State after arming `r1` once via `schedule_reminder`. -/
def sArmed : BotState :=
  (schedule_reminder noZones nowT sBase 7 7 "r1" (ofNaiveMin (nowT + 60) (some 0))
    "hello" "medium" none none).toOption.getD sBase

/-- State after the `/cancel r1` command handler runs on the armed state. -/
def sCancelled : BotState := cancel_reminder sArmed ["r1"]

/-- Concrete daily recurring reminder of user 7 whose fire time lies two
days before `nowT` (missed by two periods). -/
def rowStale : ReminderRow :=
  { id := "m1", user_id := 7, message := "daily",
    reminder_time := ofNaiveMin (nowT - 2880) (some 0), status := "pending",
    priority := "medium", recurrence_type := some RecType.day,
    recurrence_interval := some 1, recurrence_end_date := none,
    parent_reminder_id := none }

/-- Concrete one-shot reminder of user 7 due exactly at the sweep instant. -/
def rowAtNow : ReminderRow :=
  { id := "e1", user_id := 7, message := "attime",
    reminder_time := ofNaiveMin nowT (some 0), status := "pending",
    priority := "medium", recurrence_type := none, recurrence_interval := none,
    recurrence_end_date := none, parent_reminder_id := none }

/-- Database for the recovery-sweep counterexample. -/
def dbSweep : DB :=
  { users := [{ userBase with reminder_count := 2 }],
    reminders := [rowStale, rowAtNow] }

/-- Fresh process state over `dbSweep`. -/
def sSweep : BotState :=
  { db := dbSweep, active_reminders := [], liveTimers := [], nextHandle := 0,
    uuidCtr := 0, sent := [], replies := [], logs := [] }

/-- The fetched pending row corresponding to `rowStale`. -/
def prStale : PendingRow :=
  { id := "m1", user_id := 7, message := "daily",
    time := ofNaiveMin (nowT - 2880) (some 0), timezone := some "UTC",
    priority := "medium", recurrence_type := some RecType.day,
    recurrence_interval := some 1 }

/-- Result of processing `prStale` in the sweep. -/
def sweptStale : BotState :=
  (processPending noZones nowT sSweep prStale).toOption.getD sSweep

/-- Concrete user at the quota limit. -/
def userFull : UserRow :=
  { user_id := 9, timezone := none, max_reminders := 2, reminder_count := 2 }

/-- Database whose only user is at the quota limit. -/
def dbFull : DB := { users := [userFull], reminders := [] }

/-- A US-Eastern-like zone: standard offset UTC-5h, daylight offset UTC-4h,
transition at local 2024-03-10 02:00 (spring forward). -/
def tzEastern : Tz :=
  { stdOff := -300, dstOff := -240,
    transLocal := naiveMin ⟨2024, 3, 10, 2, 0, none⟩ }

/-- Length of the reminders table is preserved by `mark_reminder_complete`
(it only rewrites statuses). -/
theorem markComplete_length (db : DB) (rid : String) :
    (mark_reminder_complete db rid).1.reminders.length = db.reminders.length := by
  simp [mark_reminder_complete]

/-- After the completion map runs over a row list, the first row carrying
the id is no longer pending. -/
theorem find_markList_not_pending (l : List ReminderRow) (rid : String) :
    ¬ ((l.map (fun r => if matchesPending r rid none then { r with status := "completed" }
          else r)).find? (fun r => r.id == rid)).map (fun r => r.status) = some "pending" := by
  induction l with
  | nil => simp
  | cons a l2 ih =>
    simp only [List.map_cons]
    by_cases hid : a.id = rid
    · by_cases hp : a.status = "pending"
      · have hm : matchesPending a rid none = true := by
          simp [matchesPending, hid, hp]
        rw [if_pos hm]
        rw [List.find?_cons_of_pos _ (by simp [hid])]
        simp
      · have hm : ¬ matchesPending a rid none = true := by
          simp [matchesPending, hp]
        rw [if_neg hm]
        rw [List.find?_cons_of_pos _ (by simp [hid])]
        simp [hp]
    · have hm : ¬ matchesPending a rid none = true := by
        simp [matchesPending, hid]
      rw [if_neg hm]
      rw [List.find?_cons_of_neg _ (by simp [hid])]
      exact ih

/-- `mark_reminder_complete` leaves no pending first row under the id. -/
theorem statusOf_markComplete_not_pending (db : DB) (rid : String) :
    ¬ statusOf (mark_reminder_complete db rid).1 rid = some "pending" := by
  simpa [statusOf, mark_reminder_complete] using find_markList_not_pending db.reminders rid

/-- The count-trigger update commutes with user lookup. -/
theorem find_bump (us : List UserRow) (uid δ : Int) :
    (bumpCount us uid δ).find? (fun u => u.user_id == uid) =
      (us.find? (fun u => u.user_id == uid)).map
        (fun u => { u with reminder_count := u.reminder_count + δ }) := by
  induction us with
  | nil => rfl
  | cons a l ih =>
    simp only [bumpCount, List.map_cons]
    by_cases h : a.user_id = uid
    · rw [if_pos (by simp [h])]
      rw [List.find?_cons_of_pos _ (by simp [h]), List.find?_cons_of_pos _ (by simp [h])]
      rfl
    · rw [if_neg (by simp [h])]
      rw [List.find?_cons_of_neg _ (by simp [h]), List.find?_cons_of_neg _ (by simp [h])]
      simpa [bumpCount] using ih

/-- The metadata dict built by `schedule_reminder` (bot.py 759-768). -/
def mkEntry (h : Nat) (rt : PyDateTime) (u c : Int) (msg prio : String)
    (rty : Option RecType) (ri : Option Int) : Entry :=
  { timer := h, scheduled_time := rt, user_id := u, chat_id := c, message := msg,
    priority := prio, recurrence_type := rty, recurrence_interval := ri }

/-- The live-timer record started by `schedule_reminder`. -/
def mkTimerRec (h : Nat) (rid : String) (fireAt : Int) (c u : Int) (msg prio : String)
    (rty : Option RecType) (ri : Option Int) (lt : PyDateTime) : TimerRec :=
  { handle := h, reminder_id := rid, fireAt := fireAt, chat_id := c, user_id := u,
    message := msg, priority := prio, recurrence_type := rty,
    recurrence_interval := ri, last_time := lt }

/-- A successful `schedule_reminder` call either does nothing (non-positive
delay) or pushes exactly one new timer and overwrites the dict entry. -/
theorem schedule_cases (zones : String → Option Tz) (now : Int) (s : BotState)
    (c u : Int) (rid : String) (rt : PyDateTime) (msg prio : String)
    (rty : Option RecType) (ri : Option Int) (s1 : BotState)
    (hok : schedule_reminder zones now s c u rid rt msg prio rty ri = .ok s1) :
    s1 = s ∨ ∃ rt2 : PyDateTime,
      s1 = { s with
        active_reminders := setEntry s.active_reminders rid
          (mkEntry s.nextHandle rt2 u c msg prio rty ri),
        liveTimers := mkTimerRec s.nextHandle rid
            (now + (utcMin (astimezoneUTC rt2) - now)) c u msg prio rty ri rt2 ::
          s.liveTimers,
        nextHandle := s.nextHandle + 1,
        logs := s.logs ++ ["scheduled " ++ rid] } := by
  unfold schedule_reminder at hok
  split at hok <;> dsimp only at hok
  case h_1 =>
    split at hok
    · rw [Except.ok.injEq] at hok
      subst hok
      exact Or.inr ⟨_, rfl⟩
    · rw [Except.ok.injEq] at hok
      subst hok
      exact Or.inl rfl
  case h_2 =>
    split at hok
    · exact absurd hok (by simp)
    · split at hok
      · rw [Except.ok.injEq] at hok
        subst hok
        exact Or.inr ⟨_, rfl⟩
      · rw [Except.ok.injEq] at hok
        subst hok
        exact Or.inl rfl

/-- Sends are untouched by `schedule_reminder`, and every new dict entry or
timer it creates carries the chat id it was called with. -/
theorem schedule_sent_chat (zones : String → Option Tz) (now : Int) (s : BotState)
    (c u : Int) (rid : String) (rt : PyDateTime) (msg prio : String)
    (rty : Option RecType) (ri : Option Int) (s1 : BotState)
    (hok : schedule_reminder zones now s c u rid rt msg prio rty ri = .ok s1) :
    s1.sent = s.sent ∧
    (∀ p ∈ s1.active_reminders, p ∈ s.active_reminders ∨ p.2.chat_id = c) ∧
    (∀ t ∈ s1.liveTimers, t ∈ s.liveTimers ∨ t.chat_id = c) := by
  rcases schedule_cases zones now s c u rid rt msg prio rty ri s1 hok with h | ⟨rt2, h⟩
  · subst h
    exact ⟨rfl, fun p hp => Or.inl hp, fun t ht => Or.inl ht⟩
  · subst h
    refine ⟨rfl, ?_, ?_⟩
    · intro p hp
      simp only [setEntry, List.mem_append, List.mem_singleton] at hp
      rcases hp with hp | hp
      · exact Or.inl (List.mem_of_mem_filter hp)
      · subst hp
        exact Or.inr rfl
    · intro t ht
      simp only [List.mem_cons] at ht
      rcases ht with ht | ht
      · subst ht
        exact Or.inr rfl
      · exact Or.inl ht

/-- Field-level characterization of the month branch of
`calculate_next_occurrence`. -/
theorem month_branch_eq (y m d hh mm : Int) (o : Option Int) (n : Int)
    (h1 : 1 ≤ m) (h2 : m ≤ 12) (hn : 1 ≤ n) :
    calculate_next_occurrence ⟨y, m, d, hh, mm, o⟩ RecType.month n =
      { year := y + (m + n - 1) / 12,
        month := (m + n - 1) % 12 + 1,
        day := min d (daysInMonth (y + (m + n - 1) / 12) ((m + n - 1) % 12 + 1)),
        hour := hh, minute := mm, off := o } := by
  have dayCongr : ∀ (a b a2 b2 : Int), a = a2 → b = b2 →
      min d (daysInMonth a b) = min d (daysInMonth a2 b2) := by
    intro a b a2 b2 ha hb; rw [ha, hb]
  simp only [calculate_next_occurrence]
  rw [Int.fdiv_eq_ediv _ (by norm_num), Int.fmod_eq_emod _ (by norm_num)]
  cases o with
  | none =>
    by_cases hgt : m + n > 12
    · by_cases hz : (m + n) % 12 = 0
      · simp only [if_pos hgt, if_pos hz, PyDateTime.mk.injEq]
        exact ⟨by omega, by omega, dayCongr _ _ _ _ (by omega) (by omega), trivial, trivial, trivial⟩
      · simp only [if_pos hgt, if_neg hz, PyDateTime.mk.injEq]
        exact ⟨by omega, by omega, dayCongr _ _ _ _ (by omega) (by omega), trivial, trivial, trivial⟩
    · simp only [if_neg hgt, PyDateTime.mk.injEq]
      exact ⟨by omega, by omega, dayCongr _ _ _ _ (by omega) (by omega), trivial, trivial, trivial⟩
  | some v =>
    simp only [ne_eq, not_true_eq_false, if_neg, if_false]
    by_cases hgt : m + n > 12
    · by_cases hz : (m + n) % 12 = 0
      · simp only [if_pos hgt, if_pos hz, PyDateTime.mk.injEq]
        exact ⟨by omega, by omega, dayCongr _ _ _ _ (by omega) (by omega), trivial, trivial, trivial⟩
      · simp only [if_pos hgt, if_neg hz, PyDateTime.mk.injEq]
        exact ⟨by omega, by omega, dayCongr _ _ _ _ (by omega) (by omega), trivial, trivial, trivial⟩
    · simp only [if_neg hgt, PyDateTime.mk.injEq]
      exact ⟨by omega, by omega, dayCongr _ _ _ _ (by omega) (by omega), trivial, trivial, trivial⟩

/-- Sends, dict entries and timers produced by `processPendingWith` beyond
those already present all target the chat id equal to the row's user id. -/
theorem processWith_chat (zones : String → Option Tz) (now : Int) (s : BotState)
    (r : PendingRow) (X : PyDateTime) (s1 : BotState)
    (hok : processPendingWith zones now s r X = .ok s1) :
    (∀ e ∈ s1.sent, e ∈ s.sent ∨ e.chat_id = r.user_id) ∧
    (∀ p ∈ s1.active_reminders, p ∈ s.active_reminders ∨ p.2.chat_id = r.user_id) ∧
    (∀ t ∈ s1.liveTimers, t ∈ s.liveTimers ∨ t.chat_id = r.user_id) := by
  unfold processPendingWith at hok
  dsimp only at hok
  repeat' (first
    | split_ifs at hok
    | split at hok)
  all_goals try exact Except.noConfusion hok
  all_goals rw [Except.ok.injEq] at hok
  all_goals subst hok
  · rename_i s3x heq3x
    obtain ⟨hsent, hact, htim⟩ :=
      schedule_sent_chat _ _ _ _ _ _ _ _ _ _ _ _ heq3x
    refine ⟨?_, ?_, ?_⟩
    · intro e he
      try dsimp only at he
      rw [hsent] at he
      try dsimp only at he
      try simp only [List.mem_append, List.mem_singleton] at he
      first
        | exact Or.inl he
        | exact he.elim Or.inl (fun h => Or.inr (h ▸ rfl))
    · intro p hp
      try dsimp only at hp
      exact (hact p hp).elim Or.inl Or.inr
    · intro t ht
      try dsimp only at ht
      exact (htim t ht).elim Or.inl Or.inr
  · refine ⟨?_, fun p hp => Or.inl hp, fun t ht => Or.inl ht⟩
    intro e he
    try dsimp only at he
    simp only [List.mem_append, List.mem_singleton] at he
    exact he.elim Or.inl (fun h => Or.inr (h ▸ rfl))
  · refine ⟨?_, fun p hp => Or.inl hp, fun t ht => Or.inl ht⟩
    intro e he
    try dsimp only at he
    simp only [List.mem_append, List.mem_singleton] at he
    exact he.elim Or.inl (fun h => Or.inr (h ▸ rfl))
  · rename_i s3x heq3x
    obtain ⟨hsent, hact, htim⟩ :=
      schedule_sent_chat _ _ _ _ _ _ _ _ _ _ _ _ heq3x
    refine ⟨?_, ?_, ?_⟩
    · intro e he
      try dsimp only at he
      rw [hsent] at he
      try dsimp only at he
      try simp only [List.mem_append, List.mem_singleton] at he
      first
        | exact Or.inl he
        | exact he.elim Or.inl (fun h => Or.inr (h ▸ rfl))
    · intro p hp
      try dsimp only at hp
      exact (hact p hp).elim Or.inl Or.inr
    · intro t ht
      try dsimp only at ht
      exact (htim t ht).elim Or.inl Or.inr

/-- C1 counterexample: running the recovery sweep twice with no time
passing arms the single future pending reminder `r1` TWICE — after the
second sweep two live timers exist for the one reminder id, whose row is
still pending, refuting that re-arming an already Armed id first disarms
the previous timer and that the second sweep is a no-op. -/
theorem C1_counterexample_sweep_twice_double_arms :
    timersFor (handle_missed_reminders noZones nowT
      (handle_missed_reminders noZones nowT sBase)) "r1" = 2 ∧
    timersFor (handle_missed_reminders noZones nowT sBase) "r1" = 1 ∧
    statusOf (handle_missed_reminders noZones nowT
      (handle_missed_reminders noZones nowT sBase)).db "r1" = some "pending" := by
  decide

/-- C1 (amended): `schedule_reminder` never disarms anything — whenever the
delay is positive it succeeds, every previously live timer (including any
already armed for the same id) stays live, and the live-timer count for the
scheduled id grows by one; only the dict entry is overwritten.  Hence
re-arming an Armed id yields two live timers and a repeated recovery sweep
re-arms instead of being a no-op. -/
theorem C1_schedule_appends_timer_without_disarm (zones : String → Option Tz)
    (now : Int) (s : BotState) (chat_id user_id : Int) (reminder_id : String)
    (reminder_time : PyDateTime) (message priority : String)
    (rty : Option RecType) (ri : Option Int) (o : Int)
    (hoff : reminder_time.off = some o)
    (hpos : utcMin (astimezoneUTC reminder_time) - now > 0) :
    ∃ s2, schedule_reminder zones now s chat_id user_id reminder_id reminder_time
        message priority rty ri = .ok s2 ∧
      (∀ t ∈ s.liveTimers, t ∈ s2.liveTimers) ∧
      timersFor s2 reminder_id = timersFor s reminder_id + 1 := by
  unfold schedule_reminder
  rw [hoff]
  simp only [gt_iff_lt]
  rw [if_pos hpos]
  refine ⟨_, rfl, ?_, ?_⟩
  · intro t ht
    exact List.mem_cons_of_mem _ ht
  · simp [timersFor, List.filter_cons]

/-- C1 witness: re-scheduling the already armed `r1` on the armed state
adds a second live timer while the first stays live. -/
theorem C1_schedule_appends_timer_without_disarm_witness :
    ∃ s2, schedule_reminder noZones nowT sArmed 7 7 "r1"
        (ofNaiveMin (nowT + 60) (some 0)) "hello" "medium" none none = .ok s2 ∧
      (∀ t ∈ sArmed.liveTimers, t ∈ s2.liveTimers) ∧
      timersFor s2 "r1" = timersFor sArmed "r1" + 1 :=
  C1_schedule_appends_timer_without_disarm noZones nowT sArmed 7 7 "r1"
    (ofNaiveMin (nowT + 60) (some 0)) "hello" "medium" none none 0 rfl (by decide)

/-- C2 code bug: a daily reminder localized at 09:00 on 2024-03-09 in the
Eastern-like zone keeps the pre-transition offset in its computed next
occurrence (the wall-clock fields still read 09:00 and the offset is still
-300), so the instant the timer fires corresponds to local wall-clock 10:00
(minute-of-day 600) after the spring-forward transition — the local 9am is
NOT preserved, because `calculate_next_occurrence` never re-applies the
zone rules and its DST block compares the unchanged baked-in offset with
itself. -/
theorem C2_dst_daily_reminder_fires_at_wrong_local_time :
    (calculate_next_occurrence (tzEastern.localize ⟨2024, 3, 9, 9, 0, none⟩)
      RecType.day 1).hour = 9 ∧
    (calculate_next_occurrence (tzEastern.localize ⟨2024, 3, 9, 9, 0, none⟩)
      RecType.day 1).off = some (-300) ∧
    minuteOfDay (tzEastern.localAt (utcMin
      (calculate_next_occurrence (tzEastern.localize ⟨2024, 3, 9, 9, 0, none⟩)
        RecType.day 1))) = 600 := by
  decide

/-- C3: the month branch of `calculate_next_occurrence` adds the interval
as calendar months — year carry included — preserving the day-of-month
clamped to the length of the resulting month, and leaves time-of-day and
tzinfo untouched; in particular a 31 January input with interval 1 lands on
the last day of February, never in March. -/
theorem C3_month_recurrence_calendar_addition (t : PyDateTime) (n : Int)
    (h1 : 1 ≤ t.month) (h2 : t.month ≤ 12) (hn : 1 ≤ n) :
    calculate_next_occurrence t RecType.month n =
      { year := t.year + (t.month + n - 1) / 12,
        month := (t.month + n - 1) % 12 + 1,
        day := min t.day (daysInMonth (t.year + (t.month + n - 1) / 12)
          ((t.month + n - 1) % 12 + 1)),
        hour := t.hour, minute := t.minute, off := t.off } := by
  obtain ⟨y, m, d, hh, mm, o⟩ := t
  exact month_branch_eq y m d hh mm o n h1 h2 hn

/-- C3 witness: 31 January 2024 plus one month is 29 February 2024 (leap
year), not a date in March. -/
theorem C3_month_recurrence_calendar_addition_witness :
    (1 : Int) ≤ (PyDateTime.mk 2024 1 31 9 0 none).month ∧
    (PyDateTime.mk 2024 1 31 9 0 none).month ≤ 12 ∧ (1 : Int) ≤ 1 ∧
    calculate_next_occurrence ⟨2024, 1, 31, 9, 0, none⟩ RecType.month 1 =
      ⟨2024, 2, 29, 9, 0, none⟩ := by
  refine ⟨by decide, by decide, by decide, ?_⟩
  rw [C3_month_recurrence_calendar_addition ⟨2024, 1, 31, 9, 0, none⟩ 1
    (by decide) (by decide) (by decide)]
  decide

/-- C4 counterexample: a reminder whose delay is exactly zero at schedule
time is silently dropped — `schedule_reminder` returns with the state
completely unchanged: no timer armed, no entry stored, nothing delivered,
refuting that it is treated as immediately due. -/
theorem C4_counterexample_zero_delay_silently_dropped :
    okState (schedule_reminder noZones nowT sBase 7 7 "rX"
      (ofNaiveMin nowT (some 0)) "m" "medium" none none) = some sBase ∧
    timersFor sBase "rX" = 0 ∧ sBase.sent = [] ∧
    getEntry sBase.active_reminders "rX" = none := by
  decide

/-- C4 (amended): whenever the computed delay is zero or negative,
`schedule_reminder` succeeds while doing nothing at all — the state is
returned unchanged, so the reminder is left unarmed with no delivery and
no state change. -/
theorem C4_nonpositive_delay_schedule_is_noop (zones : String → Option Tz)
    (now : Int) (s : BotState) (chat_id user_id : Int) (reminder_id : String)
    (reminder_time : PyDateTime) (message priority : String)
    (rty : Option RecType) (ri : Option Int) (o : Int)
    (hoff : reminder_time.off = some o)
    (hle : utcMin (astimezoneUTC reminder_time) - now ≤ 0) :
    schedule_reminder zones now s chat_id user_id reminder_id reminder_time
      message priority rty ri = .ok s := by
  unfold schedule_reminder
  rw [hoff]
  simp only [gt_iff_lt]
  rw [if_neg (by omega)]

/-- C4 witness: scheduling a reminder due exactly at the current instant
returns the state unchanged. -/
theorem C4_nonpositive_delay_schedule_is_noop_witness :
    schedule_reminder noZones nowT sBase 7 7 "rX" (ofNaiveMin nowT (some 0))
      "m" "medium" none none = .ok sBase :=
  C4_nonpositive_delay_schedule_is_noop noZones nowT sBase 7 7 "rX"
    (ofNaiveMin nowT (some 0)) "m" "medium" none none 0 rfl (by decide)

/-- C5 counterexample: sweeping a database holding a daily recurring
reminder missed by two days and a one-shot reminder due exactly at the
sweep instant leaves the recurring row completed with NO successor row (the
table still has exactly its two original rows, so the series is silently
dropped), and leaves the exactly-due row pending with no timer armed —
neither newly Armed nor Completed. -/
theorem C5_counterexample_sweep_drops_series_and_orphans_row :
    statusOf (handle_missed_reminders noZones nowT sSweep).db "m1" = some "completed" ∧
    (handle_missed_reminders noZones nowT sSweep).db.reminders.length = 2 ∧
    statusOf (handle_missed_reminders noZones nowT sSweep).db "e1" = some "pending" ∧
    (handle_missed_reminders noZones nowT sSweep).liveTimers = [] := by
  decide

/-- C5 (amended): a missed recurring pending row whose computed next
occurrence is NOT strictly in the future gets the missed message and is
marked completed with no successor row inserted (the table length is
unchanged and its first row under the id is no longer pending) and no timer
armed — the recurring series silently ends; only a next occurrence strictly
in the future (and within the end date) spawns a successor. -/
theorem C5_missed_recurring_stale_next_completes_without_successor
    (zones : String → Option Tz) (now : Int) (s : BotState)
    (r : PendingRow) (o : Int) (hoff : r.time.off = some o)
    (rty : RecType) (hrt : r.recurrence_type = some rty)
    (i : Int) (hri : r.recurrence_interval = some i)
    (hpast : utcMin (astimezoneUTC r.time) < now)
    (hstale : ¬ utcMin (calculate_next_occurrence r.time rty i) > now) :
    processPending zones now s r =
      .ok { s with
            db := (mark_reminder_complete s.db r.id).1,
            sent := s.sent ++
              [{ chat_id := r.user_id, text := "Missed Reminder: " ++ r.message }] } ∧
    (mark_reminder_complete s.db r.id).1.reminders.length = s.db.reminders.length ∧
    ¬ statusOf (mark_reminder_complete s.db r.id).1 r.id = some "pending" := by
  refine ⟨?_, markComplete_length s.db r.id, statusOf_markComplete_not_pending s.db r.id⟩
  unfold processPending
  rw [hoff]
  dsimp only
  unfold processPendingWith
  simp only [gt_iff_lt]
  rw [if_pos hpast]
  rw [hrt, hri]
  simp only [gt_iff_lt] at hstale
  dsimp only
  rw [if_neg (by simp [hstale])]

/-- C5 witness: processing the concrete stale daily row in the sweep yields
exactly the missed message plus completion, with no successor row. -/
theorem C5_missed_recurring_stale_next_completes_without_successor_witness :
    processPending noZones nowT sSweep prStale =
      .ok { sSweep with
            db := (mark_reminder_complete sSweep.db prStale.id).1,
            sent := sSweep.sent ++
              [{ chat_id := prStale.user_id,
                 text := "Missed Reminder: " ++ prStale.message }] } ∧
    (mark_reminder_complete sSweep.db prStale.id).1.reminders.length =
      sSweep.db.reminders.length ∧
    ¬ statusOf (mark_reminder_complete sSweep.db prStale.id).1 prStale.id =
      some "pending" :=
  C5_missed_recurring_stale_next_completes_without_successor noZones nowT sSweep
    prStale 0 rfl RecType.day rfl 1 rfl (by decide) (by decide)

/-- C6 code bug: cancelling the armed reminder `r1` through the `/cancel`
command marks the row cancelled but leaves its timer live (the handler
never touches `active_reminders`), and firing that timer afterwards still
delivers the reminder message; the list-view Cancel button path raises
AttributeError (it calls `.cancel()` on the stored metadata dict, which the
annotation of line 265 wrongly promises is a `threading.Timer`), likewise
leaving the timer live.  The delivery callback therefore CAN fire after
cancel, refuting the claim. -/
theorem C6_cancel_leaves_timer_live_and_callback_fires :
    statusOf sCancelled.db "r1" = some "cancelled" ∧
    sCancelled.liveTimers = sArmed.liveTimers ∧
    timersFor sCancelled "r1" = 1 ∧
    (fireTimer noZones (nowT + 60) true sCancelled 0).sent =
      [{ chat_id := 7, text := "[md] Reminder: hello" }] ∧
    errOf (button_cancel sArmed "r1") = some PyError.attributeError ∧
    (errState (button_cancel sArmed "r1")).map (fun st => timersFor st "r1") =
      some 1 := by
  decide

/-- C7 counterexample: when the delivery sink raises during `send_reminder`
for the armed pending reminder `r1`, the row is NOT marked completed — it
stays pending, refuting that the reminder is marked completed on transient
delivery failure. -/
theorem C7_counterexample_failed_delivery_row_stays_pending :
    statusOf (send_reminder noZones nowT false sArmed 7 7 "r1" "hello" "medium"
      none none (ofNaiveMin (nowT + 60) (some 0))).db "r1" = some "pending" := by
  decide

/-- C7 (amended): on delivery failure `send_reminder` only logs the error
and removes the in-memory entry — it is not retried, nothing is sent, and
the database is left completely untouched, so the fired reminder's row
remains pending after the callback finishes. -/
theorem C7_failed_delivery_logs_and_leaves_row_pending
    (zones : String → Option Tz) (now : Int) (s : BotState)
    (chat_id user_id : Int) (reminder_id message priority : String)
    (recurrence_type : Option RecType) (recurrence_interval : Option Int)
    (last_time : PyDateTime) :
    send_reminder zones now false s chat_id user_id reminder_id message priority
      recurrence_type recurrence_interval last_time =
    { s with logs := s.logs ++ ["send_error " ++ reminder_id],
             active_reminders := delEntry s.active_reminders reminder_id } := by
  rfl

/-- C7 witness: the failure branch on the concrete armed state. -/
theorem C7_failed_delivery_logs_and_leaves_row_pending_witness :
    send_reminder noZones nowT false sArmed 7 7 "r1" "hello" "medium"
      none none (ofNaiveMin (nowT + 60) (some 0)) =
    { sArmed with logs := sArmed.logs ++ ["send_error " ++ "r1"],
                  active_reminders := delEntry sArmed.active_reminders "r1" } :=
  C7_failed_delivery_logs_and_leaves_row_pending noZones nowT sArmed 7 7 "r1"
    "hello" "medium" none none (ofNaiveMin (nowT + 60) (some 0))

/-- C8: `save_reminder` of a user whose cached reminder_count has reached
max_reminders fails with the quota error leaving the database unchanged
(the call IS the error, no insertion happens), while for a user below the
quota with a fresh id it succeeds, inserting exactly one pending row and
incrementing the cached count in the same transaction via the insert
trigger, so a count equal to the number of pending rows before the call is
again equal after it. -/
theorem C8_quota_enforced_and_count_tracks_pending (dbF dbS : DB)
    (uidF uidS : Int) (uF uS : UserRow) (idS msgS : String) (tS : PyDateTime)
    (prS : String) (rtS : Option RecType) (riS : Option Int) (parS : Option String)
    (hF : findUser dbF uidF = some uF)
    (hfull : uF.reminder_count ≥ uF.max_reminders)
    (hS : findUser dbS uidS = some uS)
    (hroom : ¬ uS.reminder_count ≥ uS.max_reminders)
    (hfresh : dbS.reminders.any (fun r => r.id == idS) = false)
    (hinv : userCount dbS uidS = some (pendingCount dbS uidS)) :
    (∀ (idF msgF : String) (tF : PyDateTime) (prF : String) (rtF : Option RecType)
        (riF : Option Int) (parF : Option String),
      save_reminder dbF uidF idF msgF tF prF rtF riF parF = .error .reminderLimit) ∧
    ∃ dbS2, save_reminder dbS uidS idS msgS tS prS rtS riS parS = .ok dbS2 ∧
      dbS2.reminders.length = dbS.reminders.length + 1 ∧
      userCount dbS2 uidS = some (uS.reminder_count + 1) ∧
      userCount dbS2 uidS = some (pendingCount dbS2 uidS) := by
  have hSfind : dbS.users.find? (fun u => u.user_id == uidS) = some uS := hS
  constructor
  · intro idF msgF tF prF rtF riF parF
    unfold save_reminder
    rw [hF]
    dsimp only
    rw [if_pos hfull]
  · unfold save_reminder
    rw [hS]
    dsimp only
    rw [if_neg hroom]
    rw [hfresh]
    simp only [Bool.false_eq_true, if_false]
    refine ⟨_, rfl, ?_, ?_, ?_⟩
    · simp
    · simp only [userCount, findUser, find_bump, hSfind]
      rfl
    · have hc : uS.reminder_count = pendingCount dbS uidS := by
        have hx : userCount dbS uidS = some uS.reminder_count := by
          simp only [userCount, hS]
          rfl
        rw [hx] at hinv
        exact Option.some.inj hinv
      simp only [userCount, findUser, find_bump, hSfind, Option.map_map, Option.map_some]
      simp [pendingCount, List.filter_append, hc]

/-- C8 witness: the full user's create fails with the quota error, and the
user with room gets exactly one new pending row with the count matching. -/
theorem C8_quota_enforced_and_count_tracks_pending_witness :
    (∀ (idF msgF : String) (tF : PyDateTime) (prF : String) (rtF : Option RecType)
        (riF : Option Int) (parF : Option String),
      save_reminder dbFull 9 idF msgF tF prF rtF riF parF = .error .reminderLimit) ∧
    ∃ dbS2, save_reminder dbBase 7 "n1" "msg" (ofNaiveMin nowT (some 0)) "medium"
        none none none = .ok dbS2 ∧
      dbS2.reminders.length = dbBase.reminders.length + 1 ∧
      userCount dbS2 7 = some (userBase.reminder_count + 1) ∧
      userCount dbS2 7 = some (pendingCount dbS2 7) :=
  C8_quota_enforced_and_count_tracks_pending dbFull dbBase 9 7 userFull userBase
    "n1" "msg" (ofNaiveMin nowT (some 0)) "medium" none none none rfl (by decide)
    rfl (by decide) (by decide) (by decide)

/-- C9 counterexample: the No Recurrence button's callback data splits on
underscores into five pieces unpacked into four targets, so the handler
raises ValueError with the state unchanged — `update_reminder` is never
called, no recurrence field is touched, AND no failure message is reported,
refuting the claim's conclusion that the edit reports failure. -/
theorem C9_counterexample_no_recurrence_button_raises :
    errOf (button_set_recur noZones nowT sBase 0 0 "set_recur_abc12345_none_0") =
      some PyError.valueError ∧
    (errState (button_set_recur noZones nowT sBase 0 0 "set_recur_abc12345_none_0")).map
      (fun st => st.replies) = some [] ∧
    (errState (button_set_recur noZones nowT sBase 0 0 "set_recur_abc12345_none_0")).map
      (fun st => st.db) = some sBase.db := by
  decide

/-- C9 (amended): `update_reminder` with every supplied field None builds an
empty SET clause and returns False with the database untouched — recurrence
fields can never be cleared through it — while the No Recurrence button
path itself crashes with ValueError on callback-data unpacking before it
can call `update_reminder`, so no failure message is ever reported. -/
theorem C9_all_none_update_returns_false_row_unchanged :
    (∀ (db : DB) (reminder_id : String) (user_id : Option Int),
      update_reminder db reminder_id user_id noUpdates = (db, false)) ∧
    errOf (button_set_recur noZones nowT sBase 0 0 "set_recur_abc12345_none_0") =
      some PyError.valueError := by
  constructor
  · intro db reminder_id user_id
    rfl
  · decide

/-- C10: every chat message and every armed timer or dict entry that one
recovery-sweep iteration adds is addressed to the chat id equal to the
processed row's user id — the fetched row (see `PendingRow`) carries no
chat column, and both the missed-notification send and the re-arm calls
pass `reminder['user_id']` as the chat id. -/
theorem C10_sweep_targets_chat_equal_to_user_id (zones : String → Option Tz)
    (now : Int) (s : BotState) (r : PendingRow) (s1 : BotState)
    (hok : processPending zones now s r = .ok s1) :
    (∀ e ∈ s1.sent, e ∈ s.sent ∨ e.chat_id = r.user_id) ∧
    (∀ p ∈ s1.active_reminders, p ∈ s.active_reminders ∨ p.2.chat_id = r.user_id) ∧
    (∀ t ∈ s1.liveTimers, t ∈ s.liveTimers ∨ t.chat_id = r.user_id) := by
  unfold processPending at hok
  repeat' split at hok
  all_goals try exact Except.noConfusion hok
  all_goals dsimp only at hok
  all_goals exact processWith_chat _ _ _ _ _ _ hok

/-- C10 witness: processing the stale recurring row sends its missed
message to chat 7, the owning user id. -/
theorem C10_sweep_targets_chat_equal_to_user_id_witness :
    (∀ e ∈ sweptStale.sent, e ∈ sSweep.sent ∨ e.chat_id = prStale.user_id) ∧
    (∀ p ∈ sweptStale.active_reminders,
      p ∈ sSweep.active_reminders ∨ p.2.chat_id = prStale.user_id) ∧
    (∀ t ∈ sweptStale.liveTimers,
      t ∈ sSweep.liveTimers ∨ t.chat_id = prStale.user_id) :=
  C10_sweep_targets_chat_equal_to_user_id noZones nowT sSweep prStale sweptStale rfl
